import Mathlib

/-!
Verification development for the `gempy` front-end module
(`gempy/core/gempy_front.py`).

The file shallowly embeds the parts of the module that the verified
properties are about.  The front-end delegates to methods of the model
components (`gempy.core.model`), whose source is not part of this
repository snapshot; wherever such a method decides a property, it is
modelled from the specification and its doc comment says so explicitly.
Coordinates are embedded as rationals, row tables as lists, and Python
exceptions as `Except` results; functions that mutate the model in place
are embedded as functions that also return the (possibly mutated) model,
so that the state left behind by a raised exception is observable.
-/

namespace Pipeline

/-- Spatial coordinates of one grid point (floats embedded as rationals). -/
abbrev Point : Type := ℚ × ℚ × ℚ

/-- Errors raised by the computation pipeline: the `assert` in
`compute_model` (insufficient interface points), and a failure of the
external solver invocation. -/
inductive GemError where
  | insufficientData
  | solverError
deriving DecidableEq

/-- A `Solution` snapshot: the raw solver output per grid point, and
whether mesh extraction was requested (`compute_mesh`).  Mesh geometry
itself is produced by an external collaborator and is out of scope. -/
structure Solution where
  values : List Int
  meshComputed : Bool
deriving DecidableEq

/-- Modelled from the spec: the solver input matrix assembled by
`Interpolator.get_input_matrix` (whose body is not in this snapshot) is
the ordered observation data plus the grid coordinates.  It does not
include the previously stored `Solution`. -/
structure SolverInput where
  interfaces : List String
  grid : List Point

/-- Modelled from the spec (§6, external interfaces): the compiled theano
function is an opaque callable that either fails (`SolverError`) or
returns one raw output value per grid point; it is deterministic for a
fixed input. -/
abbrev SolverFn : Type := SolverInput → Except Unit (Point → Int)

/-- The model state visible to `compute_model`: the interface table
(only the formation tag of each row matters for the structure check),
the grid, the compiled solver and the currently stored solutions. -/
structure Model where
  interfaces : List String
  grid : List Point
  solver : SolverFn
  solutions : Solution

/-- Modelled from the spec (§4.3 `updateStructure`): the structure data
`len_formations_i` records, per formation occurring in the interface
table, the number of interface points of that formation. -/
def formationCounts (interfaces : List String) : List Nat :=
  interfaces.dedup.map (fun f => interfaces.count f)

/-- The assertion of `compute_model`:
`model.additional_data.len_formations_i.min() > 1`.
For a nonempty count series this is `min > 1`, i.e. every count exceeds 1;
for an empty series pandas yields `NaN`, and `NaN > 1` is `False`, so the
assertion fails.  Both cases are captured below. -/
def structureCheck (m : Model) : Bool :=
  !(formationCounts m.interfaces).isEmpty
    && (formationCounts m.interfaces).all (fun c => 1 < c)

/-- `Interpolator.get_input_matrix` (body not in this snapshot, modelled
from the spec): projects the solver-relevant state out of the model. -/
def get_input_matrix (m : Model) : SolverInput :=
  { interfaces := m.interfaces, grid := m.grid }

/-- `gempy_front.compute_model`: builds the input matrix, asserts the
at-least-2-interface-points-per-layer invariant, invokes the solver and
stores the wrapped outputs via `solutions.set_values` (modelled from the
spec as a wholesale replacement of the stored `Solution`).  The returned
pair is (raised exception or returned solution, model state afterwards). -/
def compute_model (m : Model) (compute_mesh : Bool) :
    Except GemError Solution × Model :=
  let i := get_input_matrix m
  if structureCheck m then
    match m.solver i with
    | .error _ => (.error .solverError, m)
    | .ok f =>
        let sol : Solution := { values := m.grid.map f, meshComputed := compute_mesh }
        (.ok sol, { m with solutions := sol })
  else
    (.error .insufficientData, m)

/-- `gempy_front.create_grid('custom_grid', custom_grid=pts)`: a custom
grid adopts the given point array. -/
def create_grid_custom (pts : List Point) : List Point := pts

/-- `gempy_front.set_grid`: replaces the model grid. -/
def set_grid (m : Model) (g : List Point) : Model :=
  { m with grid := g }

/-- `gempy_front.compute_model_at`: substitutes a custom grid built from
the given points and recomputes the model with `compute_mesh=False`.
The source does not restore the previous grid afterwards. -/
def compute_model_at (new_grid_array : List Point) (m : Model) :
    Except GemError Solution × Model :=
  let m1 := set_grid m (create_grid_custom new_grid_array)
  compute_model m1 false

/-- A solver that always succeeds, answering `5` at every grid point. -/
def exampleSolverOk : SolverFn := fun _ => .ok (fun _ => 5)

/-- A solver whose invocation always fails. -/
def exampleSolverFail : SolverFn := fun _ => .error ()

/-- The initial (empty) solution snapshot. -/
def emptySolution : Solution := { values := [], meshComputed := true }

/-- A concrete solvable model: one formation with two interface points. -/
def mOk : Model :=
  { interfaces := ["A", "A"], grid := [(0, 0, 0)],
    solver := exampleSolverOk, solutions := emptySolution }

/-- A concrete model whose solver invocation fails. -/
def mFail : Model :=
  { interfaces := ["A", "A"], grid := [(0, 0, 0)],
    solver := exampleSolverFail, solutions := emptySolution }

/-- A concrete model with a formation carrying exactly one interface
point. -/
def mOne : Model :=
  { interfaces := ["A"], grid := [(0, 0, 0)],
    solver := exampleSolverOk, solutions := emptySolution }

/-- A concrete model with no interface rows at all. -/
def mEmpty : Model :=
  { interfaces := [], grid := [],
    solver := exampleSolverOk, solutions := emptySolution }

end Pipeline

/-- Row-wise fallible recomputation of a table column: the embedding of a
pandas column assignment that can hit a bad lookup on some row.  The
first failing row aborts the whole recomputation. -/
def mapExcept (f : α → Except ε β) : List α → Except ε (List β)
  | [] => .ok []
  | a :: as =>
      match f a with
      | .error e => .error e
      | .ok b =>
          match mapExcept f as with
          | .error e => .error e
          | .ok bs => .ok (b :: bs)

namespace Registry

/-- Errors of the taxonomy registry and the consistency cascade. -/
inductive RegError where
  | danglingReference
  | alreadyExists
deriving DecidableEq

/-- One row of the formations catalog: name, numeric id (column `id`) and
the series the formation belongs to. -/
structure FormationEntry where
  name : String
  fid : Int
  series : String
deriving DecidableEq

/-- One row of the series catalog: name and rank (column `order_series`). -/
structure SeriesEntry where
  name : String
  order : Int
deriving DecidableEq

/-- One row of the faults table: a series and its is-fault flag. -/
structure FaultEntry where
  series : String
  isFault : Bool
deriving DecidableEq

/-- One observation row (interface or orientation).  `formation` is the
authoritative reference; `fid`, `series`, `order_series` and `isFault`
are the derived foreign-key columns. -/
structure Obs where
  formation : String
  fid : Int
  series : String
  order_series : Int
  isFault : Bool
deriving DecidableEq

/-- The model state visible to the consistency cascade. -/
structure GModel where
  formations : List FormationEntry
  series : List SeriesEntry
  faults : List FaultEntry
  interfaces : List Obs
  orientations : List Obs
deriving DecidableEq

/-- The two column names `map_to_data` passes to
`map_data_from_formations`. -/
inductive FormationCol where
  | fid
  | series
deriving DecidableEq

/-- Overwrite the requested derived column of a row with the catalog
entry's value. -/
def applyFormationCol (col : FormationCol) (e : FormationEntry) (r : Obs) : Obs :=
  match col with
  | .fid => { r with fid := e.fid }
  | .series => { r with series := e.series }

/-- Modelled from the spec (§4.2 `mapFromFormations`, body in the missing
`gempy.core.model`): recompute the given derived column of every row by
looking the row's formation reference up in the formations catalog; a row
referencing an unknown formation fails with `DanglingReferenceError`. -/
def map_data_from_formations (fms : List FormationEntry) (col : FormationCol)
    (rows : List Obs) : Except RegError (List Obs) :=
  mapExcept (fun r =>
    match fms.find? (fun e => e.name == r.formation) with
    | some e => .ok (applyFormationCol col e r)
    | none => .error .danglingReference) rows

/-- Modelled from the spec (§4.2 `mapFromSeries`): recompute the
`order_series` column from the series catalog via the row's (previously
remapped) series column. -/
def map_data_from_series (ss : List SeriesEntry) (rows : List Obs) :
    Except RegError (List Obs) :=
  mapExcept (fun r =>
    match ss.find? (fun e => e.name == r.series) with
    | some e => .ok { r with order_series := e.order }
    | none => .error .danglingReference) rows

/-- Modelled from the spec (§4.2 `mapFromFaults`): recompute the fault
flag from the faults table via the row's series column. -/
def map_data_from_faults (fs : List FaultEntry) (rows : List Obs) :
    Except RegError (List Obs) :=
  mapExcept (fun r =>
    match fs.find? (fun e => e.series == r.series) with
    | some e => .ok { r with isFault := e.isFault }
    | none => .error .danglingReference) rows

/-- One remapping applied to the interface table then to the orientation
table (the call pattern of `map_to_data`); the first failure raises. -/
def bothTables (f : List Obs → Except RegError (List Obs)) (i o : List Obs) :
    Except RegError (List Obs × List Obs) :=
  match f i with
  | .error e => .error e
  | .ok i' =>
      match f o with
      | .error e => .error e
      | .ok o' => .ok (i', o')

/-- `gempy_front.map_to_data`: the consistency cascade, in source order —
formation `id` on both tables, then `series` on both, then
`order_series` on both, then the fault flags on both. -/
def map_to_data (m : GModel) : Except RegError GModel :=
  match bothTables (map_data_from_formations m.formations .fid)
      m.interfaces m.orientations with
  | .error e => .error e
  | .ok (i1, o1) =>
  match bothTables (map_data_from_formations m.formations .series) i1 o1 with
  | .error e => .error e
  | .ok (i2, o2) =>
  match bothTables (map_data_from_series m.series) i2 o2 with
  | .error e => .error e
  | .ok (i3, o3) =>
  match bothTables (map_data_from_faults m.faults) i3 o3 with
  | .error e => .error e
  | .ok (i4, o4) => .ok { m with interfaces := i4, orientations := o4 }

/-- The sort key order of `sort_table`: ascending by `order_series`,
ties by formation `id`. -/
def obsLe (a b : Obs) : Bool :=
  decide (a.order_series < b.order_series) ||
    (decide (a.order_series = b.order_series) && decide (a.fid ≤ b.fid))

/-- Modelled from the spec (§4.2 `sortTable`, body in the missing
`gempy.core.model`): stable sort of the observation rows by
(`order_series`, formation `id`) ascending, ties keeping the original
insertion order (`mergeSort` is stable). -/
def sort_table (rows : List Obs) : List Obs :=
  rows.mergeSort obsLe

/-- Id reassignment starting at `n`, in catalog order. -/
def set_id_from (n : Int) : List FormationEntry → List FormationEntry
  | [] => []
  | e :: es => { e with fid := n } :: set_id_from (n + 1) es

/-- Modelled from the spec (§3, dense formation ids): `Formations.set_id`
reassigns ids `1..N` to the formation catalog in catalog order. -/
def set_id (fms : List FormationEntry) : List FormationEntry :=
  set_id_from 1 fms

/-- Modelled from the spec (§4.1 `addBasement`):
`Formations.add_basement` appends the basement sentinel formation and
fails (an `assert` in the missing `gempy.core.model`) if it is already
present. -/
def formations_add_basement (fms : List FormationEntry) :
    Except RegError (List FormationEntry) :=
  if fms.any (fun e => e.name == "basement") then .error .alreadyExists
  else .ok (fms ++ [{ name := "basement", fid := (fms.length : Int) + 1,
                      series := "Basement" }])

/-- Modelled from the spec (§4.1 `addBasement`): `Series.add_basement`
appends the basement sentinel series and fails if already present. -/
def series_add_basement (ss : List SeriesEntry) :
    Except RegError (List SeriesEntry) :=
  if ss.any (fun s => s.name == "Basement") then .error .alreadyExists
  else .ok (ss ++ [{ name := "Basement", order := (ss.length : Int) + 1 }])

/-- The `try/except AssertionError` block of `set_values_to_default`:
attempt `formations.add_basement()` then `series.add_basement()`; an
already-exists failure of either is caught (logged with a `print`) and
swallowed, leaving whatever state the in-place mutations reached. -/
def basement_step (fms : List FormationEntry) (ss : List SeriesEntry) :
    List FormationEntry × List SeriesEntry :=
  match formations_add_basement fms with
  | .error _ => (fms, ss)
  | .ok fms' =>
      match series_add_basement ss with
      | .error _ => (fms', ss)
      | .ok ss' => (fms', ss')

/-- Does a series name mark a fault (the name contains `fault`)? -/
def name_flags_fault (s : String) : Bool :=
  (s.splitOn "fault").length != 1

/-- Modelled from the spec (§4.1 `setIsFault`, body in the missing
`gempy.core.model`): `Faults.set_is_fault()` rebuilds the fault flags,
one row per series, flagged by the fault naming convention. -/
def set_is_fault (ss : List SeriesEntry) : List FaultEntry :=
  ss.map (fun s => { series := s.name, isFault := name_flags_fault s.name })

/-- `gempy_front.set_values_to_default` on its default call path
(`series_distribution=None`, `order_formations=None`, so those two
branches are not taken and are not modelled): optionally rebuild the
fault flags, reassign dense formation ids and run the tolerated
basement-addition block, then run the `map_to_data` cascade, whose
failure propagates to the caller. -/
def set_values_to_default (m : GModel)
    (set_faults map_formations_from_series call_map_to_data : Bool) :
    Except RegError GModel :=
  let m1 := if set_faults then { m with faults := set_is_fault m.series } else m
  let m2 :=
    if map_formations_from_series then
      let fms := set_id m1.formations
      let p := basement_step fms m1.series
      { m1 with formations := p.1, series := p.2 }
    else m1
  if call_map_to_data then map_to_data m2 else .ok m2

/-- The model state `set_values_to_default` (with all three flags set)
has built right before it enters the `map_to_data` cascade. -/
def defaults_premap (m : GModel) : GModel :=
  let m1 := { m with faults := set_is_fault m.series }
  let p := basement_step (set_id m1.formations) m1.series
  { m1 with formations := p.1, series := p.2 }

/-- A concrete model with stale foreign keys on its observation rows,
used to evaluate the cascade on an explicit input. -/
def gW : GModel :=
  { formations := [{ name := "A", fid := 7, series := "S1" }],
    series := [{ name := "S1", order := 1 }],
    faults := [{ series := "S1", isFault := false }],
    interfaces := [{ formation := "A", fid := 99, series := "stale",
                     order_series := 99, isFault := true }],
    orientations := [{ formation := "A", fid := 98, series := "stale",
                       order_series := 98, isFault := true }] }

/-- The expected state of `gW` after the `map_to_data` cascade. -/
def gWMapped : GModel :=
  { gW with
    interfaces := [{ formation := "A", fid := 7, series := "S1",
                     order_series := 1, isFault := false }],
    orientations := [{ formation := "A", fid := 7, series := "S1",
                       order_series := 1, isFault := false }] }

/-- A concrete observation table already sorted by
(`order_series`, formation `id`). -/
def sortedRows : List Obs :=
  [{ formation := "A", fid := 1, series := "S1", order_series := 1, isFault := false },
   { formation := "B", fid := 2, series := "S1", order_series := 1, isFault := false }]

/-- A concrete model in which the basement sentinel is already present
in both the formations and the series catalog. -/
def gB : GModel :=
  { formations := [{ name := "basement", fid := 1, series := "Basement" }],
    series := [{ name := "Basement", order := 1 }],
    faults := [],
    interfaces := [],
    orientations := [] }

end Registry

namespace OrientOps

/-- Errors of `set_orientation_from_interfaces`: a missing pandas index
(`KeyError` from `.loc`) and the mixed-formation `AssertionError`. -/
inductive OriError where
  | keyError
  | mixedFormation
deriving DecidableEq

/-- One interface row: coordinates plus the formation reference. -/
structure IfPoint where
  x : ℚ
  y : ℚ
  z : ℚ
  formation : String
deriving DecidableEq

/-- The nine numeric values `create_orientation_from_interfaces` returns
(position, dip, azimuth, polarity and gradient vector). -/
structure OriParams where
  x : ℚ
  y : ℚ
  z : ℚ
  dip : ℚ
  azimuth : ℚ
  polarity : ℚ
  gx : ℚ
  gy : ℚ
  gz : ℚ
deriving DecidableEq

/-- One orientation row. -/
structure OriRow where
  x : ℚ
  y : ℚ
  z : ℚ
  dip : ℚ
  azimuth : ℚ
  polarity : ℚ
  gx : ℚ
  gy : ℚ
  gz : ℚ
  formation : String
deriving DecidableEq

/-- The data object `set_orientation_from_interfaces` mutates. -/
structure GeoData where
  interfaces : List IfPoint
  orientations : List OriRow
deriving DecidableEq

/-- Sum of a list of rationals. -/
def qsum (l : List ℚ) : ℚ := l.foldr (· + ·) 0

/-- Modelled from the spec (§4.2 `createOrientationFromPoints`, body in
the missing `gempy.core.model`): fits a plane through the selected
points by least squares and derives dip, azimuth, polarity and the
gradient vector.  The properties verified here depend only on one
orientation row being produced per index set, so the numeric fit is
modelled as the points' centroid together with a fixed unit-normal
orientation; the least-squares numerics are solver-side and out of
scope. -/
def create_orientation_from_interfaces (pts : List IfPoint) : OriParams :=
  let n : ℚ := pts.length
  { x := qsum (pts.map (·.x)) / n
    y := qsum (pts.map (·.y)) / n
    z := qsum (pts.map (·.z)) / n
    dip := 0, azimuth := 0, polarity := 1
    gx := 0, gy := 0, gz := 1 }

/-- The orientation row built from nine derived parameters and a
formation reference. -/
def mkOriRow (p : OriParams) (formation : String) : OriRow :=
  { x := p.x, y := p.y, z := p.z, dip := p.dip, azimuth := p.azimuth,
    polarity := p.polarity, gx := p.gx, gy := p.gy, gz := p.gz,
    formation := formation }

/-- `add_orientation` (missing `gempy.core.model`, modelled from the
spec): appends one orientation row built from the given parameters and
formation. -/
def add_orientation (g : GeoData) (p : OriParams) (formation : String) : GeoData :=
  { g with orientations := g.orientations ++ [mkOriRow p formation] }

/-- `geo_data.interfaces['formation'].loc[indices]` row selection: each
index must exist in the table (else pandas raises `KeyError`). -/
def locRows (g : GeoData) (indices : List Nat) : Except OriError (List IfPoint) :=
  mapExcept (fun i =>
    match g.interfaces.get? i with
    | some p => .ok p
    | none => .error .keyError) indices

/-- One body iteration of `set_orientation_from_interfaces`: select the
rows, `assert` that they carry exactly one distinct formation (else the
mixed-formation error), compute the orientation parameters and append
the new orientation row. -/
def addOriFromIndices (g : GeoData) (indices : List Nat) : Except OriError GeoData :=
  match locRows g indices with
  | .error e => .error e
  | .ok sel =>
      let forms := (sel.map (·.formation)).dedup
      if forms.length = 1 then
        .ok (add_orientation g (create_orientation_from_interfaces sel) forms.headI)
      else .error .mixedFormation

/-- The 2D loop of `set_orientation_from_interfaces`: each row of the
index matrix is processed in order; a failure raises out of the loop,
leaving the orientations appended by the earlier iterations in place. -/
def addOriLoop (g : GeoData) : List (List Nat) → Except OriError Unit × GeoData
  | [] => (.ok (), g)
  | is :: rest =>
      match addOriFromIndices g is with
      | .ok g' => addOriLoop g' rest
      | .error e => (.error e, g)

/-- The argument of `set_orientation_from_interfaces`: a numpy array
whose dimensionality drives the dispatch.  Each constructor fixes the
value of `np.ndim`. -/
inductive IdxArray where
  | d0 (i : Nat)
  | d1 (is : List Nat)
  | d2 (iss : List (List Nat))
  | d3 (c : List (List (List Nat)))
deriving DecidableEq

/-- `np.ndim` of the argument. -/
def ndim : IdxArray → Nat
  | .d0 _ => 0
  | .d1 _ => 1
  | .d2 _ => 2
  | .d3 _ => 3

/-- Modelled from the spec (§4.6): `update_df` re-runs the consistency
refresh of the dataframes, which re-derives the foreign-key columns from
the registry.  The rows of this cluster carry only coordinates and the
authoritative formation reference, which the refresh never alters, so it
is the identity here; in particular it appends no row. -/
def update_df (g : GeoData) : GeoData := g

/-- `gempy_front.set_orientation_from_interfaces`: dispatches on
`np.ndim(indices_array)` — `1` processes the single index set, `2` loops
over the rows of the index matrix, and any other dimensionality matches
neither branch, so nothing is appended and no error is raised.  On
normal exit `update_df` runs and the orientation table is returned; an
assertion failure propagates before `update_df`, leaving the mutations
already performed. -/
def set_orientation_from_interfaces (g : GeoData) (indices_array : IdxArray) :
    Except OriError (List OriRow) × GeoData :=
  let step : Except OriError Unit × GeoData :=
    match indices_array with
    | .d1 is =>
        (match addOriFromIndices g is with
         | .ok g' => (.ok (), g')
         | .error e => (.error e, g))
    | .d2 iss => addOriLoop g iss
    | _ => (.ok (), g)
  match step with
  | (.ok _, g') =>
      let g2 := update_df g'
      (.ok g2.orientations, g2)
  | (.error e, g') => (.error e, g')

/-- A concrete data object: four interface points of formation `A` and
one of formation `B`, no orientations yet. -/
def gMix : GeoData :=
  { interfaces :=
      [{ x := 0, y := 0, z := 0, formation := "A" },
       { x := 1, y := 0, z := 0, formation := "A" },
       { x := 0, y := 1, z := 0, formation := "A" },
       { x := 1, y := 1, z := 0, formation := "A" },
       { x := 0, y := 0, z := 1, formation := "B" }],
    orientations := [] }

/-- The rows of `gMix` selected by the indices `[0, 1, 2]`. -/
def selW : List IfPoint :=
  [{ x := 0, y := 0, z := 0, formation := "A" },
   { x := 1, y := 0, z := 0, formation := "A" },
   { x := 0, y := 1, z := 0, formation := "A" }]

end OrientOps

namespace Rescaler

/-- A spatial point. -/
abbrev QPoint : Type := ℚ × ℚ × ℚ

/-- Maximum of a list of rationals (`0` for the empty list, which the
properties below never hit). -/
def qmaxList : List ℚ → ℚ
  | [] => 0
  | x :: xs => xs.foldl max x

/-- Minimum of a list of rationals. -/
def qminList : List ℚ → ℚ
  | [] => 0
  | x :: xs => xs.foldl min x

/-- The extent of one coordinate axis: `max - min`. -/
def axisSpan (l : List ℚ) : ℚ := qmaxList l - qminList l

/-- The x coordinates of a point cloud. -/
def xsOf (pts : List QPoint) : List ℚ := pts.map (fun p => p.1)

/-- The y coordinates of a point cloud. -/
def ysOf (pts : List QPoint) : List ℚ := pts.map (fun p => p.2.1)

/-- The z coordinates of a point cloud. -/
def zsOf (pts : List QPoint) : List ℚ := pts.map (fun p => p.2.2)

/-- The maximum extent across the three axes of a point cloud. -/
def maxExtent (pts : List QPoint) : ℚ :=
  max (axisSpan (xsOf pts)) (max (axisSpan (ysOf pts)) (axisSpan (zsOf pts)))

/-- The centroid of a point cloud (component-wise mean). -/
def centroid (pts : List QPoint) : QPoint :=
  let n : ℚ := pts.length
  ((xsOf pts).foldr (· + ·) 0 / n,
   (ysOf pts).foldr (· + ·) 0 / n,
   (zsOf pts).foldr (· + ·) 0 / n)

/-- Rescale one point with the given factor and centers: each coordinate
is centered, divided by the factor and shifted into the `(0,1)` band. -/
def rescaleP (factor : ℚ) (c : QPoint) (p : QPoint) : QPoint :=
  ((p.1 - c.1) / factor + 1 / 2,
   (p.2.1 - c.2.1) / factor + 1 / 2,
   (p.2.2 - c.2.2) / factor + 1 / 2)

/-- The rescaler state: the combined authoritative coordinates
(interfaces + orientations + grid), the stored factor and centers, and
the derived rescaled coordinates. -/
structure RescalingState where
  pts : List QPoint
  factor : ℚ
  centers : QPoint
  rescaledPts : List QPoint
deriving DecidableEq

/-- Modelled from the spec (§4.3 `updateRescaling`, body in the missing
`gempy.core.model`): `rescale_data(rescaling_factor, centers)` computes
the factor as the maximum extent across axes of the combined point cloud
when no factor is given, the centers as the data centroid when none are
given, stores both, and re-derives the rescaled coordinates from the
authoritative coordinates. -/
def rescale_data (s : RescalingState) (rescaling_factor : Option ℚ)
    (centers : Option QPoint) : RescalingState :=
  let f := rescaling_factor.getD (maxExtent s.pts)
  let c := centers.getD (centroid s.pts)
  { s with factor := f, centers := c,
           rescaledPts := s.pts.map (rescaleP f c) }

/-- A concrete rescaler state whose point cloud spans 200 units on its
longest (x) axis. -/
def sW : RescalingState :=
  { pts := [(0, 0, 0), (200, 0, 0)], factor := 0, centers := (0, 0, 0),
    rescaledPts := [] }

end Rescaler

/-! ## Theorems -/

namespace Pipeline

/-- `compute_model` never touches the grid. -/
theorem compute_model_grid_eq (m : Model) (cm : Bool) :
    (compute_model m cm).2.grid = m.grid := by
  unfold compute_model
  by_cases h : structureCheck m = true
  · simp only [h, if_true]
    cases m.solver (get_input_matrix m) <;> rfl
  · simp only [Bool.not_eq_true] at h
    simp [h]

/-- `compute_model` on a model differing only in the stored solutions
behaves identically: the stored solution is not an input of the solve. -/
theorem compute_model_solutions_irrelevant (m : Model) (cm : Bool) (s : Solution) :
    (compute_model { m with solutions := s } cm).1 = (compute_model m cm).1 := by
  unfold compute_model
  have hin : get_input_matrix { m with solutions := s } = get_input_matrix m := rfl
  rw [hin]
  by_cases h : structureCheck m = true
  · have h' : structureCheck { m with solutions := s } = true := h
    simp only [h, h', if_true]
    cases m.solver (get_input_matrix m) <;> rfl
  · simp only [Bool.not_eq_true] at h
    have h' : structureCheck { m with solutions := s } = false := h
    simp [h, h']

/-- A successful `compute_model` determines the returned solution and the
stored state: the check passed, the solver returned a field, the solution
wraps exactly that output, and it is stored wholesale. -/
theorem compute_model_ok_elim (m : Model) (cm : Bool) (sol : Solution)
    (h : (compute_model m cm).1 = .ok sol) :
    structureCheck m = true
    ∧ ∃ f, m.solver (get_input_matrix m) = .ok f
        ∧ sol = { values := m.grid.map f, meshComputed := cm }
        ∧ (compute_model m cm).2 = { m with solutions := sol } := by
  unfold compute_model at h ⊢
  by_cases hc : structureCheck m = true
  · simp only [hc, if_true] at h ⊢
    cases hs : m.solver (get_input_matrix m) with
    | error e => rw [hs] at h; simp at h
    | ok f =>
        rw [hs] at h
        simp only [Except.ok.injEq] at h
        refine ⟨trivial, f, rfl, h.symm, ?_⟩
        rw [← h]
  · simp only [Bool.not_eq_true] at hc
    simp [hc] at h

end Pipeline

namespace Pipeline

/-- C1 (amended): a model whose structure data records a formation with
exactly one interface point fails `compute_model` with the
insufficient-data error whatever solver is installed — so the solver is
never invoked and the stored solutions do not transition; and for a
model with at least one interface point in which every formation with
interface points has at least two, the structure check passes. -/
theorem c1_two_points_per_formation (m : Model) (cm : Bool) :
    (∀ f : String, m.interfaces.count f = 1 →
      ∀ sv : SolverFn,
        (compute_model { m with solver := sv } cm).1 = .error .insufficientData
        ∧ (compute_model { m with solver := sv } cm).2.solutions = m.solutions)
    ∧ (m.interfaces ≠ [] →
        (∀ f ∈ m.interfaces, 2 ≤ m.interfaces.count f) →
        structureCheck m = true) := by
  constructor
  · intro f hf sv
    have hmem : f ∈ m.interfaces := by
      have : 0 < m.interfaces.count f := by rw [hf]; exact Nat.one_pos
      exact List.count_pos_iff.mp this
    have hall : (formationCounts m.interfaces).all (fun c => 1 < c) = false := by
      rw [List.all_eq_false]
      refine ⟨1, ?_, by decide⟩
      unfold formationCounts
      exact List.mem_map.mpr ⟨f, List.mem_dedup.mpr hmem, hf⟩
    have hchk : structureCheck m = false := by
      unfold structureCheck
      rw [hall, Bool.and_false]
    have hchk' : structureCheck { m with solver := sv } = false := hchk
    constructor <;> simp [compute_model, hchk']
  · intro hne hcnt
    unfold structureCheck
    rw [Bool.and_eq_true]
    constructor
    · rw [Bool.not_eq_true', List.isEmpty_eq_false]
      unfold formationCounts
      rw [Ne, List.map_eq_nil_iff, List.dedup_eq_nil]
      exact hne
    · rw [List.all_eq_true]
      intro c hc
      unfold formationCounts at hc
      obtain ⟨f, hfm, rfl⟩ := List.mem_map.mp hc
      have h2 := hcnt f (List.mem_dedup.mp hfm)
      simpa using h2

end Pipeline

namespace Pipeline

/-- C1 counterexample to the claim as stated: a model with no interface
rows satisfies "every formation with interface points has at least 2"
vacuously, yet the structure check does not pass (the `min()` of the
empty count series is NaN, and `NaN > 1` is false) and `compute_model`
fails with the insufficient-data error. -/
theorem c1_empty_model_counterexample :
    (mEmpty.interfaces.all (fun f => 2 ≤ mEmpty.interfaces.count f)) = true
    ∧ structureCheck mEmpty = false
    ∧ (compute_model mEmpty true).1 = .error .insufficientData := by
  exact ⟨rfl, rfl, rfl⟩

/-- C1 witness: the amended theorem evaluated on a one-point model (the
computation fails and the solutions stand still) and on a two-point
model (the structure check passes). -/
theorem c1_witness :
    ((compute_model { mOne with solver := exampleSolverOk } true).1
        = .error .insufficientData
      ∧ (compute_model { mOne with solver := exampleSolverOk } true).2.solutions
        = mOne.solutions)
    ∧ structureCheck mOk = true := by
  exact ⟨(c1_two_points_per_formation mOne true).1 "A" (by decide) exampleSolverOk,
         (c1_two_points_per_formation mOk true).2 (by decide) (by decide)⟩

end Pipeline

namespace Pipeline

/-- C4: `compute_model_at` installs the custom grid built from the given
points and leaves it installed afterwards — the canonical grid is not
restored — and, whenever the computation succeeds, the returned solution
was computed with mesh extraction skipped (`compute_mesh=False`) and is
exactly the solution stored in the model. -/
theorem c4_compute_model_at_swaps_grid (m : Model) (pts : List Point) :
    (compute_model_at pts m).2.grid = create_grid_custom pts
    ∧ ∀ sol, (compute_model_at pts m).1 = .ok sol →
        sol.meshComputed = false
        ∧ (compute_model_at pts m).2.solutions = sol := by
  constructor
  · exact compute_model_grid_eq (set_grid m (create_grid_custom pts)) false
  · intro sol h
    have h' : (compute_model (set_grid m (create_grid_custom pts)) false).1
        = .ok sol := h
    obtain ⟨-, f, -, hsol, hst⟩ := compute_model_ok_elim _ false sol h'
    refine ⟨by rw [hsol], ?_⟩
    show (compute_model (set_grid m (create_grid_custom pts)) false).2.solutions = sol
    rw [hst]

/-- C4 witness: on the concrete solvable model, evaluating at the single
point `(1,2,3)` leaves that custom grid installed and stores the
mesh-skipping solution it returns. -/
theorem c4_witness :
    (compute_model_at [((1 : ℚ), (2 : ℚ), (3 : ℚ))] mOk).2.grid
        = [((1 : ℚ), (2 : ℚ), (3 : ℚ))]
    ∧ ({ values := [5], meshComputed := false } : Solution).meshComputed = false
    ∧ (compute_model_at [((1 : ℚ), (2 : ℚ), (3 : ℚ))] mOk).2.solutions
        = { values := [5], meshComputed := false } := by
  have h := c4_compute_model_at_swaps_grid mOk [((1 : ℚ), (2 : ℚ), (3 : ℚ))]
  have h2 := h.2 { values := [5], meshComputed := false } rfl
  exact ⟨h.1, h2.1, h2.2⟩

/-- C5: `compute_model` treats the stored solution atomically — if the
solver invocation fails, the previously stored solution is untouched
(and the failure surfaces as the solver error), and on a successful
solve the stored solution is replaced wholesale by a solution built
only from the new outputs. -/
theorem c5_solution_atomic_replacement (m : Model) (cm : Bool) :
    (∀ e, m.solver (get_input_matrix m) = .error e →
        (compute_model m cm).2.solutions = m.solutions)
    ∧ (∀ e, structureCheck m = true → m.solver (get_input_matrix m) = .error e →
        (compute_model m cm).1 = .error .solverError)
    ∧ (∀ f, structureCheck m = true → m.solver (get_input_matrix m) = .ok f →
        (compute_model m cm).1
            = .ok { values := m.grid.map f, meshComputed := cm }
        ∧ (compute_model m cm).2.solutions
            = { values := m.grid.map f, meshComputed := cm }) := by
  refine ⟨?_, ?_, ?_⟩
  · intro e he
    unfold compute_model
    by_cases hc : structureCheck m = true
    · simp [hc, he]
    · simp only [Bool.not_eq_true] at hc
      simp [hc]
  · intro e hc he
    simp [compute_model, hc, he]
  · intro f hc hf
    constructor <;> simp [compute_model, hc, hf]

/-- C5 witness: the failing-solver model keeps its stored solution and
surfaces the solver error; the succeeding model stores the freshly
wrapped output. -/
theorem c5_witness :
    (compute_model mFail true).2.solutions = mFail.solutions
    ∧ (compute_model mFail true).1 = .error .solverError
    ∧ ((compute_model mOk true).1
          = .ok { values := mOk.grid.map (fun _ => 5), meshComputed := true }
        ∧ (compute_model mOk true).2.solutions
          = { values := mOk.grid.map (fun _ => 5), meshComputed := true }) :=
  ⟨(c5_solution_atomic_replacement mFail true).1 () rfl,
   (c5_solution_atomic_replacement mFail true).2.1 () (by decide) rfl,
   (c5_solution_atomic_replacement mOk true).2.2 (fun _ => 5) (by decide) rfl⟩

/-- C8: with a valid structure and a successful solver invocation,
`compute_model` returns the wrapped outputs, one value per grid point
(the output length is the grid point count), and immediately repeating
the call on the resulting model returns a bit-identical result — the
only state the first call changed, the stored solution, is not an input
of the solve. -/
theorem c8_deterministic_solve (m : Model) (cm : Bool) (f : Point → Int)
    (h1 : structureCheck m = true)
    (h2 : m.solver (get_input_matrix m) = .ok f) :
    (compute_model m cm).1 = .ok { values := m.grid.map f, meshComputed := cm }
    ∧ ((compute_model m cm).2.solutions.values).length = m.grid.length
    ∧ (compute_model (compute_model m cm).2 cm).1 = (compute_model m cm).1 := by
  have hcm : compute_model m cm
      = (.ok { values := m.grid.map f, meshComputed := cm },
         { m with solutions := { values := m.grid.map f, meshComputed := cm } }) := by
    simp [compute_model, h1, h2]
  refine ⟨by rw [hcm], by rw [hcm]; simp, ?_⟩
  calc (compute_model (compute_model m cm).2 cm).1
      = (compute_model
          { m with solutions := { values := m.grid.map f, meshComputed := cm } }
          cm).1 := by rw [hcm]
    _ = (compute_model m cm).1 :=
        compute_model_solutions_irrelevant m cm _

/-- C8 witness: the concrete solvable model evaluated twice. -/
theorem c8_witness :
    (compute_model mOk true).1
        = .ok { values := mOk.grid.map (fun _ => (5 : Int)), meshComputed := true }
    ∧ ((compute_model mOk true).2.solutions.values).length = mOk.grid.length
    ∧ (compute_model (compute_model mOk true).2 true).1 = (compute_model mOk true).1 :=
  c8_deterministic_solve mOk true (fun _ => 5) (by decide) rfl

end Pipeline

namespace Registry

/-- Every row of a successful `mapExcept` comes from a source row on
which the row function succeeded. -/
theorem mapExcept_ok_mem {α β ε : Type _} {f : α → Except ε β} :
    ∀ {l : List α} {l' : List β}, mapExcept f l = .ok l' →
      ∀ b ∈ l', ∃ a ∈ l, f a = .ok b := by
  intro l
  induction l with
  | nil =>
      intro l' h b hb
      simp only [mapExcept, Except.ok.injEq] at h
      subst h
      simp at hb
  | cons a as ih =>
      intro l' h b hb
      unfold mapExcept at h
      cases hfa : f a with
      | error e => rw [hfa] at h; simp at h
      | ok b0 =>
          rw [hfa] at h
          cases hrest : mapExcept f as with
          | error e => rw [hrest] at h; simp at h
          | ok bs =>
              rw [hrest] at h
              simp only [Except.ok.injEq] at h
              subst h
              rcases List.mem_cons.mp hb with rfl | hmem
              · exact ⟨a, List.mem_cons_self a as, hfa⟩
              · obtain ⟨a', ha', hfa'⟩ := ih hrest b hmem
                exact ⟨a', List.mem_cons_of_mem a ha', hfa'⟩

/-- A successful `bothTables` call is a successful call on each table. -/
theorem bothTables_ok {f : List Obs → Except RegError (List Obs)}
    {i o i' o' : List Obs} (h : bothTables f i o = .ok (i', o')) :
    f i = .ok i' ∧ f o = .ok o' := by
  unfold bothTables at h
  cases hi : f i with
  | error e => rw [hi] at h; simp at h
  | ok x =>
      rw [hi] at h
      cases ho : f o with
      | error e => rw [ho] at h; simp at h
      | ok y =>
          rw [ho] at h
          simp only [Except.ok.injEq, Prod.mk.injEq] at h
          obtain ⟨rfl, rfl⟩ := h
          exact ⟨rfl, rfl⟩

/-- Row-level elimination for `map_data_from_formations`. -/
theorem map_from_formations_row {fms : List FormationEntry} {col : FormationCol}
    {rows rows' : List Obs} (h : map_data_from_formations fms col rows = .ok rows') :
    ∀ r' ∈ rows', ∃ r ∈ rows, ∃ e,
      fms.find? (fun x => x.name == r.formation) = some e
      ∧ r' = applyFormationCol col e r := by
  intro r' hr'
  unfold map_data_from_formations at h
  obtain ⟨r, hr, hfr⟩ := mapExcept_ok_mem h r' hr'
  refine ⟨r, hr, ?_⟩
  cases hfind : fms.find? (fun x => x.name == r.formation) with
  | none => rw [hfind] at hfr; simp at hfr
  | some e =>
      rw [hfind] at hfr
      simp only [Except.ok.injEq] at hfr
      exact ⟨e, rfl, hfr.symm⟩

/-- Row-level elimination for `map_data_from_series`. -/
theorem map_from_series_row {ss : List SeriesEntry} {rows rows' : List Obs}
    (h : map_data_from_series ss rows = .ok rows') :
    ∀ r' ∈ rows', ∃ r ∈ rows, ∃ e,
      ss.find? (fun x => x.name == r.series) = some e
      ∧ r' = { r with order_series := e.order } := by
  intro r' hr'
  unfold map_data_from_series at h
  obtain ⟨r, hr, hfr⟩ := mapExcept_ok_mem h r' hr'
  refine ⟨r, hr, ?_⟩
  cases hfind : ss.find? (fun x => x.name == r.series) with
  | none => rw [hfind] at hfr; simp at hfr
  | some e =>
      rw [hfind] at hfr
      simp only [Except.ok.injEq] at hfr
      exact ⟨e, rfl, hfr.symm⟩

/-- Row-level elimination for `map_data_from_faults`. -/
theorem map_from_faults_row {fs : List FaultEntry} {rows rows' : List Obs}
    (h : map_data_from_faults fs rows = .ok rows') :
    ∀ r' ∈ rows', ∃ r ∈ rows, ∃ e,
      fs.find? (fun x => x.series == r.series) = some e
      ∧ r' = { r with isFault := e.isFault } := by
  intro r' hr'
  unfold map_data_from_faults at h
  obtain ⟨r, hr, hfr⟩ := mapExcept_ok_mem h r' hr'
  refine ⟨r, hr, ?_⟩
  cases hfind : fs.find? (fun x => x.series == r.series) with
  | none => rw [hfind] at hfr; simp at hfr
  | some e =>
      rw [hfind] at hfr
      simp only [Except.ok.injEq] at hfr
      exact ⟨e, rfl, hfr.symm⟩

/-- Every row that went through the four cascade steps carries exactly
the registry's current values for its formation reference. -/
theorem cascade_row_consistent {fms : List FormationEntry}
    {ss : List SeriesEntry} {fs : List FaultEntry} {t0 t1 t2 t3 t4 : List Obs}
    (h1 : map_data_from_formations fms .fid t0 = .ok t1)
    (h2 : map_data_from_formations fms .series t1 = .ok t2)
    (h3 : map_data_from_series ss t2 = .ok t3)
    (h4 : map_data_from_faults fs t3 = .ok t4) :
    ∀ r ∈ t4, ∃ fe, fms.find? (fun e => e.name == r.formation) = some fe
      ∧ r.fid = fe.fid ∧ r.series = fe.series
      ∧ (∃ se, ss.find? (fun s => s.name == fe.series) = some se
          ∧ r.order_series = se.order)
      ∧ (∃ fa, fs.find? (fun x => x.series == fe.series) = some fa
          ∧ r.isFault = fa.isFault) := by
  intro r hr
  obtain ⟨r3, hr3, fa, hfa, rfl⟩ := map_from_faults_row h4 r hr
  obtain ⟨r2, hr2, se, hse, rfl⟩ := map_from_series_row h3 r3 hr3
  obtain ⟨r1, hr1, fe, hfe, rfl⟩ := map_from_formations_row h2 r2 hr2
  obtain ⟨r0, hr0, fe', hfe', rfl⟩ := map_from_formations_row h1 r1 hr1
  have hsame : some fe' = some fe := hfe'.symm.trans hfe
  obtain rfl := Option.some.inj hsame
  exact ⟨fe', hfe', rfl, rfl, ⟨se, hse, rfl⟩, ⟨fa, hfa, rfl⟩⟩

/-- C2: after a successful `map_to_data` cascade, every observation row
(interface or orientation) carries, in its derived foreign-key columns,
exactly the current registry's values for its formation reference —
whatever registry state the cascade was run against, so any taxonomy
mutation followed by the cascade leaves no stale foreign key
observable. -/
theorem c2_no_stale_foreign_keys (m m' : GModel) (h : map_to_data m = .ok m') :
    ∀ r ∈ m'.interfaces ++ m'.orientations,
      ∃ fe, m.formations.find? (fun e => e.name == r.formation) = some fe
        ∧ r.fid = fe.fid ∧ r.series = fe.series
        ∧ (∃ se, m.series.find? (fun s => s.name == fe.series) = some se
            ∧ r.order_series = se.order)
        ∧ (∃ fa, m.faults.find? (fun x => x.series == fe.series) = some fa
            ∧ r.isFault = fa.isFault) := by
  unfold map_to_data at h
  split at h
  · simp at h
  · rename_i i1 o1 hb1
    split at h
    · simp at h
    · rename_i i2 o2 hb2
      split at h
      · simp at h
      · rename_i i3 o3 hb3
        split at h
        · simp at h
        · rename_i i4 o4 hb4
          simp only [Except.ok.injEq] at h
          subst h
          obtain ⟨hi1, ho1⟩ := bothTables_ok hb1
          obtain ⟨hi2, ho2⟩ := bothTables_ok hb2
          obtain ⟨hi3, ho3⟩ := bothTables_ok hb3
          obtain ⟨hi4, ho4⟩ := bothTables_ok hb4
          intro r hr
          rcases List.mem_append.mp hr with hri | hro
          · exact cascade_row_consistent hi1 hi2 hi3 hi4 r hri
          · exact cascade_row_consistent ho1 ho2 ho3 ho4 r hro

end Registry

namespace Registry

/-- C2 witness: the cascade on the concrete stale model rewrites the
observation row's foreign keys to the registry's current values. -/
theorem c2_witness :
    ∃ fe, gW.formations.find?
        (fun e => e.name ==
          ({ formation := "A", fid := 7, series := "S1",
             order_series := 1, isFault := false } : Obs).formation) = some fe
      ∧ ({ formation := "A", fid := 7, series := "S1",
           order_series := 1, isFault := false } : Obs).fid = fe.fid
      ∧ ({ formation := "A", fid := 7, series := "S1",
           order_series := 1, isFault := false } : Obs).series = fe.series
      ∧ (∃ se, gW.series.find? (fun s => s.name == fe.series) = some se
          ∧ ({ formation := "A", fid := 7, series := "S1",
               order_series := 1, isFault := false } : Obs).order_series = se.order)
      ∧ (∃ fa, gW.faults.find? (fun x => x.series == fe.series) = some fa
          ∧ ({ formation := "A", fid := 7, series := "S1",
               order_series := 1, isFault := false } : Obs).isFault = fa.isFault) :=
  c2_no_stale_foreign_keys gW gWMapped rfl
    { formation := "A", fid := 7, series := "S1",
      order_series := 1, isFault := false }
    (by decide)

/-- `obsLe` is transitive. -/
theorem obsLe_trans :
    ∀ a b c : Obs, obsLe a b = true → obsLe b c = true → obsLe a c = true := by
  intro a b c hab hbc
  unfold obsLe at *
  simp only [Bool.or_eq_true, Bool.and_eq_true, decide_eq_true_eq] at *
  omega

/-- `obsLe` is total. -/
theorem obsLe_total : ∀ a b : Obs, (obsLe a b || obsLe b a) = true := by
  intro a b
  unfold obsLe
  simp only [Bool.or_eq_true, Bool.and_eq_true, decide_eq_true_eq]
  omega

/-- C6: `sort_table` is idempotent — sorting a sorted table is the
identity, so sorting twice is the same as sorting once, and a table
already sorted by (`order_series`, formation `id`) comes back
byte-identical. -/
theorem c6_sort_table_idempotent (rows : List Obs) :
    sort_table (sort_table rows) = sort_table rows
    ∧ (List.Pairwise (fun a b => obsLe a b = true) rows → sort_table rows = rows) := by
  constructor
  · exact List.mergeSort_of_sorted (List.sorted_mergeSort obsLe_trans obsLe_total rows)
  · intro hs
    exact List.mergeSort_of_sorted hs

/-- C6 witness: the concrete sorted table is untouched by the sort, and
double sorting equals single sorting. -/
theorem c6_witness :
    sort_table (sort_table sortedRows) = sort_table sortedRows
    ∧ sort_table sortedRows = sortedRows :=
  ⟨(c6_sort_table_idempotent sortedRows).1,
   (c6_sort_table_idempotent sortedRows).2 (by decide)⟩

/-- Reassigning ids never changes which names occur in the catalog. -/
theorem set_id_from_any_name (s : String) :
    ∀ (n : Int) (fms : List FormationEntry),
      (set_id_from n fms).any (fun e => e.name == s)
        = fms.any (fun e => e.name == s) := by
  intro n fms
  induction fms generalizing n with
  | nil => rfl
  | cons e es ih => simp [set_id_from, List.any_cons, ih]

/-- C7: the duplicate basement addition is tolerated and swallowed —
with the basement formation already registered, the `try/except` block
changes neither catalog; a basement series already present likewise
never changes the series catalog; and the only other fallible step of
`set_values_to_default`, the `map_to_data` cascade, has its outcome
(success or error) passed to the caller verbatim. -/
theorem c7_basement_duplicate_swallowed (m : GModel) :
    (m.formations.any (fun e => e.name == "basement") = true →
        basement_step (set_id m.formations) m.series
          = (set_id m.formations, m.series))
    ∧ (m.series.any (fun s => s.name == "Basement") = true →
        (basement_step (set_id m.formations) m.series).2 = m.series)
    ∧ set_values_to_default m true true true = map_to_data (defaults_premap m) := by
  refine ⟨?_, ?_, ?_⟩
  · intro hb
    have hb' : (set_id m.formations).any (fun e => e.name == "basement") = true := by
      rw [set_id, set_id_from_any_name]
      exact hb
    unfold basement_step formations_add_basement
    rw [if_pos hb']
  · intro hs
    have hserr : series_add_basement m.series = .error .alreadyExists := by
      unfold series_add_basement
      rw [if_pos hs]
    unfold basement_step
    cases hf : formations_add_basement (set_id m.formations) with
    | error e => rfl
    | ok fms' => simp [hserr]
  · rfl

/-- C7 witness: on the concrete model that already contains the basement
sentinel in both catalogs, the duplicate addition leaves both catalogs
unchanged and the cascade outcome is returned to the caller. -/
theorem c7_witness :
    basement_step (set_id gB.formations) gB.series
        = (set_id gB.formations, gB.series)
    ∧ (basement_step (set_id gB.formations) gB.series).2 = gB.series
    ∧ set_values_to_default gB true true true = map_to_data (defaults_premap gB) :=
  ⟨(c7_basement_duplicate_swallowed gB).1 (by decide),
   (c7_basement_duplicate_swallowed gB).2.1 (by decide),
   (c7_basement_duplicate_swallowed gB).2.2⟩

end Registry

namespace OrientOps

/-- `mapExcept` preserves the row count on success. -/
theorem mapExcept_ok_length {α β ε : Type _} {f : α → Except ε β} :
    ∀ {l : List α} {l' : List β}, mapExcept f l = .ok l' → l'.length = l.length := by
  intro l
  induction l with
  | nil =>
      intro l' h
      simp only [mapExcept, Except.ok.injEq] at h
      subst h
      rfl
  | cons a as ih =>
      intro l' h
      unfold mapExcept at h
      cases hfa : f a with
      | error e => rw [hfa] at h; simp at h
      | ok b0 =>
          rw [hfa] at h
          cases hrest : mapExcept f as with
          | error e => rw [hrest] at h; simp at h
          | ok bs =>
              rw [hrest] at h
              simp only [Except.ok.injEq] at h
              subst h
              simp [ih hrest]

/-- A nonempty list all of whose elements are `A` dedups to `[A]`. -/
theorem dedup_all_eq {A : String} :
    ∀ (l : List String), l ≠ [] → (∀ x ∈ l, x = A) → l.dedup = [A] := by
  intro l
  induction l with
  | nil => intro h; exact absurd rfl h
  | cons x xs ih =>
      intro _ hall
      have hx : x = A := hall x (List.mem_cons_self x xs)
      subst hx
      cases xs with
      | nil => simp
      | cons y ys =>
          have hy : y = x := hall y (by simp)
          have hmem : x ∈ y :: ys := by rw [hy]; exact List.mem_cons_self x ys
          rw [List.dedup_cons_of_mem hmem]
          exact ih (by simp) (fun z hz => hall z (List.mem_cons_of_mem _ hz))

/-- `addOriLoop` splits over list append: the prefix runs first, and its
outcome (with its mutated state) decides whether the suffix runs. -/
theorem addOriLoop_append (g : GeoData) (pre rest : List (List Nat)) :
    addOriLoop g (pre ++ rest)
      = (match addOriLoop g pre with
         | (.ok _, g') => addOriLoop g' rest
         | (.error e, g') => (.error e, g')) := by
  induction pre generalizing g with
  | nil => rfl
  | cons is pre ih =>
      simp only [List.cons_append, addOriLoop]
      cases addOriFromIndices g is with
      | ok g' => exact ih g'
      | error e => rfl

/-- On an index set whose rows all carry one formation, the body
iteration appends exactly the one new orientation row. -/
theorem addOriFromIndices_ok {g : GeoData} {is : List Nat} {sel : List IfPoint}
    {A : String} (hsel : locRows g is = .ok sel) (hne : sel ≠ [])
    (hall : ∀ p ∈ sel, p.formation = A) :
    addOriFromIndices g is
      = .ok (add_orientation g (create_orientation_from_interfaces sel) A) := by
  unfold addOriFromIndices
  rw [hsel]
  have hforms : (sel.map (fun p => p.formation)).dedup = [A] := by
    refine dedup_all_eq _ ?_ ?_
    · intro hmap
      exact hne (List.map_eq_nil_iff.mp hmap)
    · intro x hx
      obtain ⟨p, hp, rfl⟩ := List.mem_map.mp hx
      exact hall p hp
  simp [hforms]

end OrientOps

namespace OrientOps

/-- On an index set whose rows carry two different formations, the body
iteration fails with the mixed-formation error. -/
theorem addOriFromIndices_mixed {g : GeoData} {is : List Nat} {sel : List IfPoint}
    {p q : IfPoint} (hsel : locRows g is = .ok sel) (hp : p ∈ sel) (hq : q ∈ sel)
    (hpq : p.formation ≠ q.formation) :
    addOriFromIndices g is = .error .mixedFormation := by
  unfold addOriFromIndices
  rw [hsel]
  have hlen : ¬((sel.map (fun x => x.formation)).dedup.length = 1) := by
    intro h1
    obtain ⟨a, ha⟩ := List.length_eq_one.mp h1
    have hp' : p.formation = a := by
      have hmem : p.formation ∈ (sel.map (fun x => x.formation)).dedup :=
        List.mem_dedup.mpr (List.mem_map.mpr ⟨p, hp, rfl⟩)
      rw [ha] at hmem
      simpa using hmem
    have hq' : q.formation = a := by
      have hmem : q.formation ∈ (sel.map (fun x => x.formation)).dedup :=
        List.mem_dedup.mpr (List.mem_map.mpr ⟨q, hq, rfl⟩)
      rw [ha] at hmem
      simpa using hmem
    exact hpq (hp'.trans hq'.symm)
  simp [hlen]

/-- C3 (amended): a 1D index set of at least three valid rows all of one
formation `A` succeeds and appends exactly one orientation row with
formation `A`; a 1D index set carrying mixed formations fails with the
mixed-formation error and leaves the data object untouched; in the 2D
batch variant a mixed batch row aborts the loop with the same error but
keeps the orientations appended by the earlier batch rows — the table is
unchanged on failure only for the 1D call (or when the first batch row
fails). -/
theorem c3_orientation_from_points (g : GeoData) :
    (∀ is sel A, 3 ≤ is.length → locRows g is = .ok sel →
        (∀ p ∈ sel, p.formation = A) →
        set_orientation_from_interfaces g (.d1 is)
          = (.ok (g.orientations
                ++ [mkOriRow (create_orientation_from_interfaces sel) A]),
             { g with orientations := g.orientations
                ++ [mkOriRow (create_orientation_from_interfaces sel) A] })
        ∧ (mkOriRow (create_orientation_from_interfaces sel) A).formation = A)
    ∧ (∀ is sel p q, locRows g is = .ok sel → p ∈ sel → q ∈ sel →
        p.formation ≠ q.formation →
        set_orientation_from_interfaces g (.d1 is) = (.error .mixedFormation, g))
    ∧ (∀ pre bad rest g', addOriLoop g pre = (.ok (), g') →
        addOriFromIndices g' bad = .error .mixedFormation →
        set_orientation_from_interfaces g (.d2 (pre ++ bad :: rest))
          = (.error .mixedFormation, g')) := by
  refine ⟨?_, ?_, ?_⟩
  · intro is sel A h3 hsel hall
    have hlen : sel.length = is.length := by
      unfold locRows at hsel
      exact mapExcept_ok_length hsel
    have hne : sel ≠ [] := by
      intro hnil
      rw [hnil] at hlen
      simp at hlen
      omega
    have hadd := addOriFromIndices_ok hsel hne hall
    refine ⟨?_, rfl⟩
    simp [set_orientation_from_interfaces, hadd, update_df, add_orientation]
  · intro is sel p q hsel hp hq hpq
    have hmix := addOriFromIndices_mixed hsel hp hq hpq
    simp [set_orientation_from_interfaces, hmix]
  · intro pre bad rest g' hpre hbad
    have hloop : addOriLoop g (pre ++ bad :: rest) = (.error .mixedFormation, g') := by
      rw [addOriLoop_append, hpre]
      simp [addOriLoop, hbad]
    simp [set_orientation_from_interfaces, hloop]

/-- C3 counterexample to the claim as stated: in the batch (2D) variant
with a valid first batch row and a mixed second one, the call fails with
the mixed-formation error yet the orientation table is NOT unchanged —
the row appended by the first batch iteration stays. -/
theorem c3_batch_partial_append :
    (set_orientation_from_interfaces gMix (.d2 [[0, 1, 2], [2, 3, 4]])).1
        = .error .mixedFormation
    ∧ (set_orientation_from_interfaces gMix
          (.d2 [[0, 1, 2], [2, 3, 4]])).2.orientations.length
        = gMix.orientations.length + 1 :=
  ⟨rfl, rfl⟩

/-- C3 witness: the amended theorem evaluated on the concrete data —
three rows of formation `A` append exactly one row tagged `A`, and a
mixed 1D index set fails leaving the object untouched. -/
theorem c3_witness :
    (set_orientation_from_interfaces gMix (.d1 [0, 1, 2])
        = (.ok (gMix.orientations
              ++ [mkOriRow (create_orientation_from_interfaces selW) "A"]),
           { gMix with orientations := gMix.orientations
              ++ [mkOriRow (create_orientation_from_interfaces selW) "A"] })
      ∧ (mkOriRow (create_orientation_from_interfaces selW) "A").formation = "A")
    ∧ set_orientation_from_interfaces gMix (.d1 [2, 3, 4])
        = (.error .mixedFormation, gMix) :=
  ⟨(c3_orientation_from_points gMix).1 [0, 1, 2] selW "A" (by decide) rfl
      (by decide),
   (c3_orientation_from_points gMix).2.1 [2, 3, 4]
      [{ x := 0, y := 1, z := 0, formation := "A" },
       { x := 1, y := 1, z := 0, formation := "A" },
       { x := 0, y := 0, z := 1, formation := "B" }]
      { x := 0, y := 1, z := 0, formation := "A" }
      { x := 0, y := 0, z := 1, formation := "B" }
      rfl (by decide) (by decide) (by decide)⟩

/-- C10: an `indices_array` whose `np.ndim` is neither 1 nor 2 matches
no dispatch branch — nothing is appended, no error is raised, the
dataframe update still runs and the unchanged orientation table is
returned. -/
theorem c10_ndim_fallthrough (g : GeoData) (a : IdxArray)
    (h1 : ndim a ≠ 1) (h2 : ndim a ≠ 2) :
    set_orientation_from_interfaces g a = (.ok g.orientations, g)
    ∧ (set_orientation_from_interfaces g a).2.orientations.length
        = g.orientations.length := by
  cases a with
  | d0 i => exact ⟨rfl, rfl⟩
  | d1 is => exact absurd rfl h1
  | d2 iss => exact absurd rfl h2
  | d3 c => exact ⟨rfl, rfl⟩

/-- C10 witness: a 0-dimensional (scalar) argument on the concrete data
object returns the unchanged table with no error. -/
theorem c10_witness :
    set_orientation_from_interfaces gMix (.d0 3) = (.ok gMix.orientations, gMix)
    ∧ (set_orientation_from_interfaces gMix (.d0 3)).2.orientations.length
        = gMix.orientations.length :=
  c10_ndim_fallthrough gMix (.d0 3) (by decide) (by decide)

end OrientOps

namespace Rescaler

/-- The rescaling map commutes with the binary maximum. -/
theorem affine_max (f c d : ℚ) (hf : 0 < f) (a x : ℚ) :
    (max a x - c) / f + d = max ((a - c) / f + d) ((x - c) / f + d) := by
  rw [← max_sub_sub_right, ← max_div_div_right hf.le, ← max_add_add_right]

/-- The rescaling map commutes with the binary minimum. -/
theorem affine_min (f c d : ℚ) (hf : 0 < f) (a x : ℚ) :
    (min a x - c) / f + d = min ((a - c) / f + d) ((x - c) / f + d) := by
  rw [← min_sub_sub_right, ← min_div_div_right hf.le, ← min_add_add_right]

/-- The rescaling map commutes with a maximum fold. -/
theorem foldl_max_affine (f c d : ℚ) (hf : 0 < f) :
    ∀ (l : List ℚ) (a : ℚ),
      (l.map (fun x => (x - c) / f + d)).foldl max ((a - c) / f + d)
        = (l.foldl max a - c) / f + d := by
  intro l
  induction l with
  | nil => intro a; rfl
  | cons x xs ih =>
      intro a
      simp only [List.map_cons, List.foldl_cons]
      rw [← affine_max f c d hf, ih]

/-- The rescaling map commutes with a minimum fold. -/
theorem foldl_min_affine (f c d : ℚ) (hf : 0 < f) :
    ∀ (l : List ℚ) (a : ℚ),
      (l.map (fun x => (x - c) / f + d)).foldl min ((a - c) / f + d)
        = (l.foldl min a - c) / f + d := by
  intro l
  induction l with
  | nil => intro a; rfl
  | cons x xs ih =>
      intro a
      simp only [List.map_cons, List.foldl_cons]
      rw [← affine_min f c d hf, ih]

/-- The rescaling map commutes with the list maximum. -/
theorem qmaxList_map_affine (f c d : ℚ) (hf : 0 < f) (l : List ℚ) (hne : l ≠ []) :
    qmaxList (l.map (fun x => (x - c) / f + d)) = (qmaxList l - c) / f + d := by
  cases l with
  | nil => exact absurd rfl hne
  | cons x xs =>
      simp only [List.map_cons, qmaxList]
      exact foldl_max_affine f c d hf xs x

/-- The rescaling map commutes with the list minimum. -/
theorem qminList_map_affine (f c d : ℚ) (hf : 0 < f) (l : List ℚ) (hne : l ≠ []) :
    qminList (l.map (fun x => (x - c) / f + d)) = (qminList l - c) / f + d := by
  cases l with
  | nil => exact absurd rfl hne
  | cons x xs =>
      simp only [List.map_cons, qminList]
      exact foldl_min_affine f c d hf xs x

/-- Rescaling divides each axis span by the factor (centering and the
band shift cancel out). -/
theorem axisSpan_map_affine (f c d : ℚ) (hf : 0 < f) (l : List ℚ) (hne : l ≠ []) :
    axisSpan (l.map (fun x => (x - c) / f + d)) = axisSpan l / f := by
  unfold axisSpan
  rw [qmaxList_map_affine f c d hf l hne, qminList_map_affine f c d hf l hne]
  ring

/-- The x column of a rescaled cloud is the rescaled x column. -/
theorem xsOf_rescale (f : ℚ) (c : QPoint) (pts : List QPoint) :
    xsOf (pts.map (rescaleP f c))
      = (xsOf pts).map (fun x => (x - c.1) / f + 1 / 2) := by
  unfold xsOf rescaleP
  simp [List.map_map, Function.comp]

/-- The y column of a rescaled cloud is the rescaled y column. -/
theorem ysOf_rescale (f : ℚ) (c : QPoint) (pts : List QPoint) :
    ysOf (pts.map (rescaleP f c))
      = (ysOf pts).map (fun x => (x - c.2.1) / f + 1 / 2) := by
  unfold ysOf rescaleP
  simp [List.map_map, Function.comp]

/-- The z column of a rescaled cloud is the rescaled z column. -/
theorem zsOf_rescale (f : ℚ) (c : QPoint) (pts : List QPoint) :
    zsOf (pts.map (rescaleP f c))
      = (zsOf pts).map (fun x => (x - c.2.2) / f + 1 / 2) := by
  unfold zsOf rescaleP
  simp [List.map_map, Function.comp]

/-- Rescaling a nonempty cloud divides the maximum extent by the factor. -/
theorem maxExtent_rescale (f : ℚ) (c : QPoint) (pts : List QPoint)
    (hf : 0 < f) (hne : pts ≠ []) :
    maxExtent (pts.map (rescaleP f c)) = maxExtent pts / f := by
  have hx : xsOf pts ≠ [] := by
    unfold xsOf
    intro h
    exact hne (List.map_eq_nil_iff.mp h)
  have hy : ysOf pts ≠ [] := by
    unfold ysOf
    intro h
    exact hne (List.map_eq_nil_iff.mp h)
  have hz : zsOf pts ≠ [] := by
    unfold zsOf
    intro h
    exact hne (List.map_eq_nil_iff.mp h)
  unfold maxExtent
  rw [xsOf_rescale, ysOf_rescale, zsOf_rescale,
      axisSpan_map_affine f c.1 (1 / 2) hf _ hx,
      axisSpan_map_affine f c.2.1 (1 / 2) hf _ hy,
      axisSpan_map_affine f c.2.2 (1 / 2) hf _ hz,
      max_div_div_right hf.le, max_div_div_right hf.le]

/-- C9: with no explicit factor, `rescale_data` computes the factor as
the maximum extent across axes of the combined point cloud — `200` for
a cloud spanning 200 units on its longest axis — the rescaled cloud's
longest axis then spans exactly 1, and re-applying the rescale with the
stored factor and centers yields exactly the same state as applying it
once. -/
theorem c9_rescaling_factor (s : RescalingState) (h200 : maxExtent s.pts = 200) :
    (rescale_data s none none).factor = 200
    ∧ maxExtent (rescale_data s none none).rescaledPts = 1
    ∧ ∀ f c, rescale_data (rescale_data s (some f) (some c)) (some f) (some c)
        = rescale_data s (some f) (some c) := by
  have hne : s.pts ≠ [] := by
    intro hnil
    rw [hnil] at h200
    norm_num [maxExtent, axisSpan, qmaxList, qminList, xsOf, ysOf, zsOf] at h200
  refine ⟨h200, ?_, ?_⟩
  · show maxExtent (s.pts.map (rescaleP (maxExtent s.pts) (centroid s.pts))) = 1
    rw [maxExtent_rescale _ _ _ (by rw [h200]; norm_num) hne, h200]
    norm_num
  · intro f c
    rfl

/-- C9 witness: the concrete cloud spanning 200 units on the x axis. -/
theorem c9_witness :
    (rescale_data sW none none).factor = 200
    ∧ maxExtent (rescale_data sW none none).rescaledPts = 1
    ∧ rescale_data (rescale_data sW (some 200) (some (0, 0, 0))) (some 200)
        (some (0, 0, 0)) = rescale_data sW (some 200) (some (0, 0, 0)) := by
  have h := c9_rescaling_factor sW (by
    norm_num [sW, maxExtent, axisSpan, qmaxList, qminList, xsOf, ysOf, zsOf,
      List.foldl, max_def])
  exact ⟨h.1, h.2.1, h.2.2 200 (0, 0, 0)⟩

end Rescaler
